import Mathlib

/-!
Shallow embedding of the authentication core of Hypertrader
(src/backend/auth.py): password utilities, JWT token service,
the authentication orchestrator with account lockout, the
role-permission registry, and the sliding-window rate limiter.

Timestamps are modelled as integer seconds (`Nat` for wall-clock
instants in the auth/JWT layer, `Int` in the rate limiter so that
`now - window` never truncates).  `timedelta(minutes=15)` is 900
seconds, `ACCESS_TOKEN_EXPIRE_MINUTES = 30` is 1800 seconds and
`REFRESH_TOKEN_EXPIRE_DAYS = 7` is 604800 seconds.
-/

namespace Hypertrader

/-- Constant `ACCESS_TOKEN_EXPIRE_MINUTES = 30` from auth.py. -/
def ACCESS_TOKEN_EXPIRE_MINUTES : Nat := 30

/-- Constant `REFRESH_TOKEN_EXPIRE_DAYS = 7` from auth.py. -/
def REFRESH_TOKEN_EXPIRE_DAYS : Nat := 7

/-- The process-wide symmetric signing key (`SECRET_KEY` in auth.py),
loaded once at startup; its concrete value is irrelevant, only identity
comparisons against it matter. -/
def SECRET_KEY : String := "hypertrader-secret-key"

namespace UserRole

/-- Role constant `UserRole.ADMIN`. -/
def ADMIN : String := "admin"

/-- Role constant `UserRole.TRADER`. -/
def TRADER : String := "trader"

/-- Role constant `UserRole.VIEWER`. -/
def VIEWER : String := "viewer"

/-- Embeds `UserRole.get_permissions`: the static role-to-permission table;
unknown roles resolve to the empty list (`permissions.get(role, [])`). -/
def get_permissions (role : String) : List String :=
  if role = ADMIN then
    ["read:all", "write:all", "delete:all", "manage:users",
     "manage:strategies", "execute:trades", "view:analytics"]
  else if role = TRADER then
    ["read:own", "write:own", "manage:strategies",
     "execute:trades", "view:analytics"]
  else if role = VIEWER then
    ["read:own", "view:analytics"]
  else []

end UserRole

/-- A stored user document, as created by `AuthManager.create_user`
(`user_doc` in auth.py).  `id` stands for the Mongo `_id`. -/
structure UserRec where
  id : String
  username : String
  email : String
  password_hash : String
  role : String
  is_active : Bool
  created_at : Nat
  last_login : Option Nat
  login_attempts : Nat
  locked_until : Option Nat
deriving Repr, DecidableEq

namespace PasswordUtils

/-- Modelled from the spec: passlib's bcrypt `CryptContext.hash` is not in
this repository; the spec only requires a one-way salted digest.  We model
it as a recognisable tagged encoding of the password: enough structure to
distinguish well-formed digests from malformed ones and to compare. -/
def bcryptHashRaw (password : String) : String :=
  "$2b$12$" ++ password

/-- Modelled from the spec: a digest is well-formed exactly when it carries
the bcrypt scheme tag that `CryptContext` recognises. -/
def isBcryptDigest (digest : String) : Bool :=
  List.isPrefixOf "$2b$12$".toList digest.toList

/-- Modelled from the spec: `pwd_context.verify` from passlib, which raises
on a digest it cannot parse and otherwise returns the boolean comparison.
The raising behaviour is represented by `Except.error`. -/
def cryptContextVerify (plain_password hashed_password : String) :
    Except String Bool :=
  if isBcryptDigest hashed_password then
    .ok (hashed_password.toList == (bcryptHashRaw plain_password).toList)
  else
    .error "malformed hash"

/-- Embeds `PasswordUtils.verify_password`: wraps the library verify in
`try/except`, returning `False` on any verification error. -/
def verify_password (plain_password hashed_password : String) : Bool :=
  match cryptContextVerify plain_password hashed_password with
  | .ok b => b
  | .error _ => false

/-- Embeds `PasswordUtils.get_password_hash`. -/
def get_password_hash (password : String) : String :=
  bcryptHashRaw password

/-- The fixed punctuation set of `validate_password_strength`
(`"!@#$%^&*()_+-=[]\x7b\x7d|;:,.<>?"` in auth.py). -/
def specialChars : List Char :=
  "!@#$%^&*()_+-=[]\x7b\x7d|;:,.<>?".toList

/-- Embeds `PasswordUtils.validate_password_strength`: length at least 8, at
least one uppercase, one lowercase, one digit, one special character. -/
def validate_password_strength (password : String) : Bool :=
  if password.length < 8 then false
  else if ¬ password.toList.any Char.isUpper then false
  else if ¬ password.toList.any Char.isLower then false
  else if ¬ password.toList.any Char.isDigit then false
  else if ¬ password.toList.any (fun c => specialChars.contains c) then false
  else true

end PasswordUtils

/-- The claim payload of a signed token: the dictionary passed to
`jwt.encode` after `to_encode.update({"exp": ..., "type": ...})`.
`ttype` is the `"type"` discriminator field (`type` is reserved in Lean). -/
structure JWTPayload where
  sub : Option String := none
  user_id : Option String := none
  role : Option String := none
  permissions : List String := []
  exp : Nat
  ttype : String
deriving Repr, DecidableEq

/-- A token on the wire, from the verifier's point of view: either an
undecodable/garbage string, or a payload signed under some key. -/
inductive JoseToken where
  | malformed
  | signed (key : String) (payload : JWTPayload)
deriving Repr, DecidableEq

/-- The mutable claim seed handed to `create_access_token` /
`create_refresh_token` (`data: Dict[str, Any]` in auth.py). -/
structure TokenSeed where
  sub : Option String := none
  user_id : Option String := none
  role : Option String := none
  permissions : List String := []
deriving Repr, DecidableEq

/-- Modelled from the spec: `jose.jwt.decode` is not in this repository.
It rejects (raises `JWTError`, here `none`) a malformed token, a bad
signature, or an expired token (`exp < now`), and otherwise returns the
payload. -/
def joseDecode (token : JoseToken) (key : String) (now : Nat) :
    Option JWTPayload :=
  match token with
  | .malformed => none
  | .signed k p =>
    if k ≠ key then none
    else if p.exp < now then none
    else some p

namespace JWTManager

/-- Embeds `JWTManager.create_access_token`: expiry is `now + expires_delta`
when a delta is supplied, else `now + 30 minutes`; stamps
`type = "access"` and signs under `SECRET_KEY`. -/
def create_access_token (data : TokenSeed) (expires_delta : Option Nat)
    (now : Nat) : JoseToken :=
  let expire :=
    match expires_delta with
    | some d => now + d
    | none => now + ACCESS_TOKEN_EXPIRE_MINUTES * 60
  .signed SECRET_KEY
    { sub := data.sub, user_id := data.user_id, role := data.role,
      permissions := data.permissions, exp := expire, ttype := "access" }

/-- Embeds `JWTManager.create_refresh_token`: expiry `now + 7 days`, stamps
`type = "refresh"`, signs under `SECRET_KEY`. -/
def create_refresh_token (data : TokenSeed) (now : Nat) : JoseToken :=
  .signed SECRET_KEY
    { sub := data.sub, user_id := data.user_id, role := data.role,
      permissions := data.permissions,
      exp := now + REFRESH_TOKEN_EXPIRE_DAYS * 86400, ttype := "refresh" }

/-- Embeds `JWTManager.verify_token`: decodes (returning `none` on any
`JWTError`, i.e. bad signature, malformed token, or expiry) and then
rejects a payload whose `type` differs from the expected kind. -/
def verify_token (token : JoseToken) (token_type : String) (now : Nat) :
    Option JWTPayload :=
  match joseDecode token SECRET_KEY now with
  | none => none
  | some payload =>
    if payload.ttype ≠ token_type then none
    else some payload

end JWTManager

/-- Record `TokenData`, the claims record attached to the current user. -/
structure TokenData where
  username : Option String := none
  user_id : Option String := none
  role : Option String := none
  permissions : List String := []
deriving Repr, DecidableEq

/-- The `Token` response model: an access/refresh pair. -/
structure TokenPair where
  access_token : JoseToken
  refresh_token : JoseToken
  token_type : String := "bearer"
  expires_in : Nat
deriving Repr, DecidableEq

namespace AuthManager

/-- Embeds the store read by username. -/
def find_one (db : List UserRec) (username : String) : Option UserRec :=
  db.find? (fun u => u.username == username)

/-- Embeds the store update by document id. -/
def update_by_id (db : List UserRec) (uid : String) (f : UserRec → UserRec) :
    List UserRec :=
  db.map (fun u => if u.id == uid then f u else u)

/-- The Python truthiness test `user.get("locked_until") and
user["locked_until"] > datetime.now(timezone.utc)`. -/
def lockedCheck (user : UserRec) (now : Nat) : Bool :=
  match user.locked_until with
  | some t => now < t
  | none => false

/-- The single update document sent on a failed password check:
`$inc login_attempts by 1` and `$set locked_until` to fifteen minutes
in the future when the counter value *read earlier in the request* was
already at least 4, else to `None`.  `readAttempts` is that earlier
read. -/
def failedLoginUpdate (readAttempts : Nat) (now : Nat) (u : UserRec) :
    UserRec :=
  { u with
    login_attempts := u.login_attempts + 1,
    locked_until := if 4 ≤ readAttempts then some (now + 900) else none }

/-- The update document sent on a successful password check. -/
def successLoginUpdate (now : Nat) (u : UserRec) : UserRec :=
  { u with last_login := some now, login_attempts := 0, locked_until := none }

/-- Observable outcome of `AuthManager.authenticate_user`:
`generic` is `return None` (unknown user or wrong password),
`locked` is the HTTP 423 exception, `deactivated` the HTTP 403
exception, `success user` the returned (pre-update) user document. -/
inductive AuthOutcome where
  | generic
  | locked
  | deactivated
  | success (user : UserRec)
deriving Repr, DecidableEq

/-- Embeds `AuthManager.authenticate_user`, returning the outcome together with
the post-call user store. -/
def authenticate_user (db : List UserRec) (username password : String)
    (now : Nat) : AuthOutcome × List UserRec :=
  match find_one db username with
  | none => (.generic, db)
  | some user =>
    if lockedCheck user now then (.locked, db)
    else if ¬ user.is_active then (.deactivated, db)
    else if ¬ PasswordUtils.verify_password password user.password_hash then
      (.generic, update_by_id db user.id
        (failedLoginUpdate user.login_attempts now))
    else
      (.success user, update_by_id db user.id (successLoginUpdate now))

/-- Iterate `authenticate_user` over a list of (password, time) attempts,
threading the store. -/
def authSeq (db : List UserRec) (username : String)
    (tries : List (String × Nat)) : List UserRec :=
  tries.foldl (fun d pt => (authenticate_user d username pt.1 pt.2).2) db

/-- Embeds `AuthManager.create_tokens`: full claims in the access token,
subject-only claims in the refresh token. -/
def create_tokens (user : UserRec) (now : Nat) : TokenPair :=
  let token_data : TokenSeed :=
    { sub := some user.username, user_id := some user.id,
      role := some user.role,
      permissions := UserRole.get_permissions user.role }
  { access_token := JWTManager.create_access_token token_data none now,
    refresh_token := JWTManager.create_refresh_token
      { sub := some user.username } now,
    expires_in := ACCESS_TOKEN_EXPIRE_MINUTES * 60 }

/-- Outcome of `AuthManager.refresh_access_token`: the two 401 branches
and the success branch. -/
inductive RefreshResult where
  | invalidToken
  | userNotFoundOrInactive
  | ok (pair : TokenPair)
deriving Repr, DecidableEq

/-- Embeds `AuthManager.refresh_access_token`: verify with kind `"refresh"`,
re-resolve the user by the token's subject, reject missing/inactive
users, else issue a fresh pair from the user's current record.
A payload without a subject finds no user (`find_one` on `None`). -/
def refresh_access_token (db : List UserRec) (token : JoseToken)
    (now : Nat) : RefreshResult :=
  match JWTManager.verify_token token "refresh" now with
  | none => .invalidToken
  | some payload =>
    match payload.sub with
    | none => .userNotFoundOrInactive
    | some username =>
      match find_one db username with
      | none => .userNotFoundOrInactive
      | some user =>
        if ¬ user.is_active then .userNotFoundOrInactive
        else .ok (create_tokens user now)

/-- Outcome of `AuthManager.get_current_user`: the 401 branches, the
403 branch, and the user with its attached `token_data`. -/
inductive CurrentUserResult where
  | invalidToken
  | userNotFound
  | deactivated
  | ok (user : UserRec) (token_data : TokenData)
deriving Repr, DecidableEq

/-- Embeds `AuthManager.get_current_user`: verify the bearer token with the
default kind `"access"`, look the user up by the token's subject,
reject missing or inactive users, and attach a `TokenData` built from
the *stored* user document's role. -/
def get_current_user (db : List UserRec) (token : JoseToken) (now : Nat) :
    CurrentUserResult :=
  match JWTManager.verify_token token "access" now with
  | none => .invalidToken
  | some payload =>
    match payload.sub with
    | none => .userNotFound
    | some username =>
      match find_one db username with
      | none => .userNotFound
      | some user =>
        if ¬ user.is_active then .deactivated
        else .ok user
          { username := some username, user_id := some user.id,
            role := some user.role,
            permissions := UserRole.get_permissions user.role }

end AuthManager

/-- The in-memory `RateLimiter`: per-key lists of attempt timestamps
(integer seconds). -/
structure RateLimiter where
  attempts : List (String × List Int)
deriving Repr, DecidableEq

namespace RateLimiter

/-- Read a key's recorded attempts (`self.attempts[key]`, defaulting to
the empty list as the code inserts `[]` for a missing key). -/
def getAttempts (rl : RateLimiter) (key : String) : List Int :=
  match rl.attempts.find? (fun kv => kv.1 == key) with
  | some kv => kv.2
  | none => []

/-- Store a key's attempt list (`self.attempts[key] = ...`). -/
def setAttempts (rl : RateLimiter) (key : String) (v : List Int) :
    RateLimiter :=
  if rl.attempts.any (fun kv => kv.1 == key) then
    ⟨rl.attempts.map (fun kv => if kv.1 == key then (kv.1, v) else kv)⟩
  else ⟨rl.attempts ++ [(key, v)]⟩

/-- Embeds `RateLimiter.is_allowed`: prune the key's attempts to those strictly
inside the trailing window, reject without recording when the pruned
count has reached `max_attempts`, else record `now` and allow. -/
def is_allowed (rl : RateLimiter) (key : String) (max_attempts : Nat)
    (window_minutes : Int) (now : Int) : Bool × RateLimiter :=
  let window_start := now - window_minutes * 60
  let pruned := (getAttempts rl key).filter (fun a => window_start < a)
  if max_attempts ≤ pruned.length then
    (false, setAttempts rl key pruned)
  else
    (true, setAttempts rl key (pruned ++ [now]))

/-- Iterate `is_allowed` over a list of call times for one key,
collecting the returned booleans. -/
def allowSeq (rl : RateLimiter) (key : String) (max_attempts : Nat)
    (window_minutes : Int) (times : List Int) : List Bool × RateLimiter :=
  match times with
  | [] => ([], rl)
  | t :: ts =>
    let r := is_allowed rl key max_attempts window_minutes t
    let rest := allowSeq r.2 key max_attempts window_minutes ts
    (r.1 :: rest.1, rest.2)

end RateLimiter

/-- An interleaved run of concurrent failed-login writes: each concurrent
request has already performed its `find_one` read, observing the counter
value recorded in `reads`; the atomic update documents are then applied
in some serial order.  This is exactly the read-then-write structure of
`authenticate_user`'s failure branch. -/
def runFailWrites (now : Nat) (u : UserRec) (reads : List Nat) : UserRec :=
  reads.foldl (fun s r => AuthManager.failedLoginUpdate r now s) u

end Hypertrader

namespace Hypertrader

/-- A fresh active trader used to exercise the lockout cycle. -/
def c1User : UserRec :=
  ⟨"1", "alice", "alice@example.com",
   PasswordUtils.get_password_hash "TestPass123!", "trader", true,
   0, none, 0, none⟩

/-- A user whose stored role (admin) differs from the role at token
issuance (trader). -/
def c3User : UserRec :=
  ⟨"2", "carol", "carol@example.com",
   PasswordUtils.get_password_hash "TestPass123!", "admin", true,
   0, none, 0, none⟩

/-- An access-token payload issued while `c3User` was still a trader. -/
def c3Payload : JWTPayload :=
  { sub := some "carol", user_id := some "2", role := some "trader",
    permissions := UserRole.get_permissions "trader",
    exp := 100, ttype := "access" }

/-- The signed access token carrying `c3Payload`. -/
def c3Token : JoseToken := .signed SECRET_KEY c3Payload

/-- The token-data record `get_current_user` attaches for `c3User`. -/
def c3TD : TokenData :=
  { username := some "carol", user_id := some "2",
    role := some "admin",
    permissions := UserRole.get_permissions "admin" }

/-- An active viewer used to exercise the refresh flow. -/
def c5User : UserRec :=
  ⟨"7", "bob", "bob@example.com",
   PasswordUtils.get_password_hash "TestPass123!", "viewer", true,
   0, none, 0, none⟩

/-- A refresh-token payload carrying only the subject. -/
def c5Payload : JWTPayload :=
  { sub := some "bob", exp := 1000, ttype := "refresh" }

/-- The signed refresh token carrying `c5Payload`. -/
def c5Token : JoseToken := .signed SECRET_KEY c5Payload

/-- An unlocked active user used for the enumeration-resistance check. -/
def c6User : UserRec :=
  ⟨"9", "dave", "dave@example.com",
   PasswordUtils.get_password_hash "TestPass123!", "trader", true,
   0, none, 0, none⟩

/-- A fresh user targeted by concurrent wrong-password attempts. -/
def c7User : UserRec :=
  ⟨"3", "victim", "victim@example.com",
   PasswordUtils.get_password_hash "TestPass123!", "trader", true,
   0, none, 0, none⟩

/-- A lazily-unlocked user: the lockout expiry (500) has passed but the
failed-attempt counter is still 6. -/
def c10User : UserRec :=
  ⟨"4", "erin", "erin@example.com",
   PasswordUtils.get_password_hash "TestPass123!", "trader", true,
   0, none, 6, some 500⟩

end Hypertrader

namespace Hypertrader

/-- Helper: in a singleton store holding `u`, looking up `u`'s username
finds `u`. -/
theorem find_one_singleton (u : UserRec) :
    AuthManager.find_one [u] u.username = some u := by
  simp [AuthManager.find_one, List.find?]

/-- Helper: in a singleton store holding `u`, updating by `u`'s id
applies the update to `u`. -/
theorem update_by_id_singleton (u : UserRec) (f : UserRec → UserRec) :
    AuthManager.update_by_id [u] u.id f = [f u] := by
  simp [AuthManager.update_by_id]

/-- Helper: a failed password check on an unlocked active user in a
singleton store gives the generic outcome and applies the failure
update document. -/
theorem auth_fail_singleton (u : UserRec) (un p : String) (now : Nat)
    (hun : u.username = un)
    (hl : AuthManager.lockedCheck u now = false) (ha : u.is_active = true)
    (hp : PasswordUtils.verify_password p u.password_hash = false) :
    AuthManager.authenticate_user [u] un p now =
      (.generic, [AuthManager.failedLoginUpdate u.login_attempts now u]) := by
  subst hun
  simp [AuthManager.authenticate_user, find_one_singleton, hl, ha, hp,
    update_by_id_singleton]

/-- Helper: any attempt against a locked user in a singleton store gives
the locked signal and leaves the store untouched. -/
theorem auth_locked_singleton (u : UserRec) (un p : String) (now : Nat)
    (hun : u.username = un)
    (hl : AuthManager.lockedCheck u now = true) :
    AuthManager.authenticate_user [u] un p now = (.locked, [u]) := by
  subst hun
  simp [AuthManager.authenticate_user, find_one_singleton, hl]

/-- Helper: a successful password check on an unlocked active user in a
singleton store gives the success outcome and applies the success update
document. -/
theorem auth_success_singleton (u : UserRec) (un p : String) (now : Nat)
    (hun : u.username = un)
    (hl : AuthManager.lockedCheck u now = false) (ha : u.is_active = true)
    (hp : PasswordUtils.verify_password p u.password_hash = true) :
    AuthManager.authenticate_user [u] un p now =
      (.success u, [AuthManager.successLoginUpdate now u]) := by
  subst hun
  simp [AuthManager.authenticate_user, find_one_singleton, hl, ha, hp,
    update_by_id_singleton]

/-- Helper: a user found by `find_one` carries the queried username. -/
theorem find_one_username (db : List UserRec) (un : String) (u : UserRec)
    (h : AuthManager.find_one db un = some u) : u.username = un := by
  have hp := List.find?_some h
  simpa using hp

/-- C1: for a fresh active user, five consecutive wrong-password
authenticate calls drive the failed-attempt counter to 5 and set a
lockout expiry 15 minutes (900 s) after the fifth attempt; while the
current time is before that expiry, an authenticate call even with the
correct password — here any password at all — is rejected with the
distinct locked signal and leaves the store (hence the counter and the
whole user record) unchanged; once the current time has reached the expiry, the
correct password succeeds, resets the counter to zero, clears the
lockout expiry, and updates the last-login timestamp. -/
theorem C1_lockout_cycle (u : UserRec) (w c : String)
    (t1 t2 t3 t4 t5 t6 t7 : Nat)
    (hatt : u.login_attempts = 0) (hlock : u.locked_until = none)
    (hact : u.is_active = true)
    (hw : PasswordUtils.verify_password w u.password_hash = false)
    (hc : PasswordUtils.verify_password c u.password_hash = true)
    (h6 : t6 < t5 + 900) (h7 : t5 + 900 ≤ t7) :
    ∃ u5,
      AuthManager.authSeq [u] u.username
          [(w, t1), (w, t2), (w, t3), (w, t4), (w, t5)] = [u5] ∧
      u5.login_attempts = 5 ∧
      u5.locked_until = some (t5 + 900) ∧
      (∀ q, AuthManager.authenticate_user [u5] u.username q t6 =
        (.locked, [u5])) ∧
      (AuthManager.authenticate_user [u5] u.username c t7).1 =
        .success u5 ∧
      (AuthManager.authenticate_user [u5] u.username c t7).2 =
        [{ u5 with login_attempts := 0, locked_until := none,
                   last_login := some t7 }] := by
  have s1 : (AuthManager.authenticate_user [u] u.username w t1).2 =
      [{ u with login_attempts := 1, locked_until := none }] := by
    rw [auth_fail_singleton u u.username w t1 rfl
      (by simp [AuthManager.lockedCheck, hlock]) hact hw]
    simp [AuthManager.failedLoginUpdate, hatt]
  have s2 : (AuthManager.authenticate_user
      [{ u with login_attempts := 1, locked_until := none }]
      u.username w t2).2 =
      [{ u with login_attempts := 2, locked_until := none }] := by
    rw [auth_fail_singleton
      { u with login_attempts := 1, locked_until := none } u.username w t2 rfl
      (by simp [AuthManager.lockedCheck]) hact hw]
    simp [AuthManager.failedLoginUpdate]
  have s3 : (AuthManager.authenticate_user
      [{ u with login_attempts := 2, locked_until := none }]
      u.username w t3).2 =
      [{ u with login_attempts := 3, locked_until := none }] := by
    rw [auth_fail_singleton
      { u with login_attempts := 2, locked_until := none } u.username w t3 rfl
      (by simp [AuthManager.lockedCheck]) hact hw]
    simp [AuthManager.failedLoginUpdate]
  have s4 : (AuthManager.authenticate_user
      [{ u with login_attempts := 3, locked_until := none }]
      u.username w t4).2 =
      [{ u with login_attempts := 4, locked_until := none }] := by
    rw [auth_fail_singleton
      { u with login_attempts := 3, locked_until := none } u.username w t4 rfl
      (by simp [AuthManager.lockedCheck]) hact hw]
    simp [AuthManager.failedLoginUpdate]
  have s5 : (AuthManager.authenticate_user
      [{ u with login_attempts := 4, locked_until := none }]
      u.username w t5).2 =
      [{ u with login_attempts := 5, locked_until := some (t5 + 900) }] := by
    rw [auth_fail_singleton
      { u with login_attempts := 4, locked_until := none } u.username w t5 rfl
      (by simp [AuthManager.lockedCheck]) hact hw]
    simp [AuthManager.failedLoginUpdate]
  refine ⟨{ u with login_attempts := 5, locked_until := some (t5 + 900) },
    ?_, rfl, rfl, ?_, ?_, ?_⟩
  · simp only [AuthManager.authSeq, List.foldl]
    rw [s1, s2, s3, s4, s5]
  · intro q
    exact auth_locked_singleton
      { u with login_attempts := 5, locked_until := some (t5 + 900) }
      u.username q t6 rfl (by simp [AuthManager.lockedCheck, h6])
  · rw [auth_success_singleton
      { u with login_attempts := 5, locked_until := some (t5 + 900) }
      u.username c t7 rfl
      (by simp [AuthManager.lockedCheck, Nat.not_lt.mpr h7]) hact hc]
  · rw [auth_success_singleton
      { u with login_attempts := 5, locked_until := some (t5 + 900) }
      u.username c t7 rfl
      (by simp [AuthManager.lockedCheck, Nat.not_lt.mpr h7]) hact hc]
    simp [AuthManager.successLoginUpdate]

/-- C1 witness: the lockout cycle evaluated on the concrete fresh user
`c1User` with five wrong attempts at time 0, locked rejections for
every password at time 100, and a successful correct-password attempt at the
expiry time 900. -/
theorem C1_witness :
    c1User.login_attempts = 0 ∧ c1User.locked_until = none ∧
    c1User.is_active = true ∧
    PasswordUtils.verify_password "WrongPass1!" c1User.password_hash =
      false ∧
    PasswordUtils.verify_password "TestPass123!" c1User.password_hash =
      true ∧
    100 < 0 + 900 ∧ 0 + 900 ≤ 900 ∧
    (∃ u5,
      AuthManager.authSeq [c1User] c1User.username
          [("WrongPass1!", 0), ("WrongPass1!", 0), ("WrongPass1!", 0),
           ("WrongPass1!", 0), ("WrongPass1!", 0)] = [u5] ∧
      u5.login_attempts = 5 ∧
      u5.locked_until = some (0 + 900) ∧
      (∀ q, AuthManager.authenticate_user [u5] c1User.username
        q 100 = (.locked, [u5])) ∧
      (AuthManager.authenticate_user [u5] c1User.username
        "TestPass123!" 900).1 = .success u5 ∧
      (AuthManager.authenticate_user [u5] c1User.username
        "TestPass123!" 900).2 =
        [{ u5 with login_attempts := 0, locked_until := none,
                   last_login := some 900 }]) :=
  ⟨rfl, rfl, rfl, by decide, by decide, by decide, by decide,
   C1_lockout_cycle c1User "WrongPass1!" "TestPass123!" 0 0 0 0 0 100 900
     rfl rfl rfl (by decide) (by decide) (by decide) (by decide)⟩

end Hypertrader

namespace Hypertrader

/-- C2: `verify_token` rejects — returns `none`, never raises — exactly
when the token is malformed, the signature key is wrong, the expiry has
passed (`exp < now`), or the embedded kind differs from the expected
kind; otherwise it returns the embedded payload.  In particular an
access token never verifies as a refresh token and vice versa, a token
is rejected one second after expiry, and accepted one second before. -/
theorem C2_verify_token (token : JoseToken) (expected : String)
    (now : Nat) :
    (JWTManager.verify_token token expected now = none ↔
      token = .malformed ∨
        ∃ k p, token = .signed k p ∧
          (k ≠ SECRET_KEY ∨ p.exp < now ∨ p.ttype ≠ expected)) ∧
    (∀ p, JWTManager.verify_token (.signed SECRET_KEY p) expected now =
      if p.exp < now then none
      else if p.ttype = expected then some p else none) ∧
    (∀ data delta t, JWTManager.verify_token
        (JWTManager.create_access_token data delta t) "refresh" now =
      none) ∧
    (∀ data t, JWTManager.verify_token
        (JWTManager.create_refresh_token data t) "access" now = none) ∧
    (∀ data t, (JWTManager.verify_token
        (JWTManager.create_access_token data none t) "access"
        (t + 1799)).isSome = true) ∧
    (∀ data t, JWTManager.verify_token
        (JWTManager.create_access_token data none t) "access"
        (t + 1801) = none) := by
  refine ⟨?_, ?_, ?_, ?_, ?_, ?_⟩
  · cases token with
    | malformed => simp [JWTManager.verify_token, joseDecode]
    | signed k p =>
      by_cases hk : k = SECRET_KEY
      · subst hk
        by_cases he : p.exp < now
        · have hv : JWTManager.verify_token (.signed SECRET_KEY p)
              expected now = none := by
            simp [JWTManager.verify_token, joseDecode, he]
          rw [hv]
          simp only [eq_self_iff_true, true_iff]
          exact Or.inr ⟨SECRET_KEY, p, rfl, Or.inr (Or.inl he)⟩
        · by_cases ht : p.ttype = expected
          · have hv : JWTManager.verify_token (.signed SECRET_KEY p)
                expected now = some p := by
              simp [JWTManager.verify_token, joseDecode, he, ht]
            rw [hv]
            constructor
            · intro h
              exact absurd h (by simp)
            · rintro (h | ⟨k1, p1, heq, hd⟩)
              · exact absurd h (by simp)
              · injection heq with hk1 hp1
                subst hk1
                subst hp1
                rcases hd with h | h | h
                · exact absurd rfl h
                · exact absurd h he
                · exact absurd ht h
          · have hv : JWTManager.verify_token (.signed SECRET_KEY p)
                expected now = none := by
              simp [JWTManager.verify_token, joseDecode, he, ht]
            rw [hv]
            simp only [eq_self_iff_true, true_iff]
            exact Or.inr ⟨SECRET_KEY, p, rfl, Or.inr (Or.inr ht)⟩
      · have hv : JWTManager.verify_token (.signed k p)
            expected now = none := by
          simp [JWTManager.verify_token, joseDecode, hk]
        rw [hv]
        simp only [eq_self_iff_true, true_iff]
        exact Or.inr ⟨k, p, rfl, Or.inl hk⟩
  · intro p
    by_cases he : p.exp < now
    · simp [JWTManager.verify_token, joseDecode, he]
    · by_cases ht : p.ttype = expected
      · simp [JWTManager.verify_token, joseDecode, he, ht]
      · simp [JWTManager.verify_token, joseDecode, he, ht]
  · intro data delta t
    cases delta with
    | none =>
      by_cases hlt : t + ACCESS_TOKEN_EXPIRE_MINUTES * 60 < now <;>
        simp [JWTManager.verify_token, JWTManager.create_access_token,
          joseDecode, hlt]
    | some d =>
      by_cases hlt : t + d < now <;>
        simp [JWTManager.verify_token, JWTManager.create_access_token,
          joseDecode, hlt]
  · intro data t
    by_cases hlt : t + REFRESH_TOKEN_EXPIRE_DAYS * 86400 < now <;>
      simp [JWTManager.verify_token, JWTManager.create_refresh_token,
        joseDecode, hlt]
  · intro data t
    simp [JWTManager.verify_token, JWTManager.create_access_token,
      joseDecode, ACCESS_TOKEN_EXPIRE_MINUTES]
  · intro data t
    simp [JWTManager.verify_token, JWTManager.create_access_token,
      joseDecode, ACCESS_TOKEN_EXPIRE_MINUTES]

/-- C3 counterexample: a valid, unexpired access token for the existing
active user `c3User` carries role `trader` and the trader permission set
in its signed payload, yet `get_current_user` returns token data with
role `admin` and the admin permission set, read from the stored user
record — not the claims embedded in the token. -/
theorem C3_counterexample :
    JWTManager.verify_token c3Token "access" 0 = some c3Payload ∧
    AuthManager.find_one [c3User] "carol" = some c3User ∧
    c3User.is_active = true ∧
    AuthManager.get_current_user [c3User] c3Token 0 = .ok c3User c3TD ∧
    c3TD.role ≠ c3Payload.role ∧
    c3TD.permissions ≠ c3Payload.permissions := by decide

/-- C3 amended: for every access token accepted by `get_current_user`,
the returned token data carries the role and the permission set derived
from the user's *current* stored record (not from the token payload),
together with the token's subject; the user is active and was found by
that subject. -/
theorem C3_current_user_claims (db : List UserRec) (token : JoseToken)
    (now : Nat) (user : UserRec) (td : TokenData)
    (h : AuthManager.get_current_user db token now = .ok user td) :
    td.role = some user.role ∧
    td.permissions = UserRole.get_permissions user.role ∧
    td.user_id = some user.id ∧
    td.username = some user.username ∧
    user.is_active = true ∧
    ∃ p, JWTManager.verify_token token "access" now = some p ∧
      p.sub = some user.username ∧
      AuthManager.find_one db user.username = some user := by
  unfold AuthManager.get_current_user at h
  split at h
  · simp at h
  next p hv =>
    split at h
    · simp at h
    next un hs =>
      split at h
      · simp at h
      next u2 hf =>
        split at h
        · simp at h
        next ha =>
          have ha2 : u2.is_active = true := by
            by_contra hc
            exact ha (by simpa using hc)
          injection h with h1 h2
          subst h1
          subst h2
          have hun : u2.username = un := find_one_username db un u2 hf
          subst hun
          exact ⟨rfl, rfl, rfl, rfl, ha2, p, hv, hs, hf⟩

/-- C3 witness: the amended claim evaluated at the concrete store
`[c3User]` and token `c3Token`. -/
theorem C3_witness :
    AuthManager.get_current_user [c3User] c3Token 0 = .ok c3User c3TD ∧
    (c3TD.role = some c3User.role ∧
     c3TD.permissions = UserRole.get_permissions c3User.role ∧
     c3TD.user_id = some c3User.id ∧
     c3TD.username = some c3User.username ∧
     c3User.is_active = true ∧
     ∃ p, JWTManager.verify_token c3Token "access" 0 = some p ∧
       p.sub = some c3User.username ∧
       AuthManager.find_one [c3User] c3User.username = some c3User) :=
  ⟨by decide,
   C3_current_user_claims [c3User] c3Token 0 c3User c3TD (by decide)⟩

end Hypertrader

namespace Hypertrader

/-- C4: each `is_allowed` call prunes the key's recorded attempts to the
trailing window (every timestamp at or before `now - window` is
discarded), returns `false` without recording the current attempt when
the pruned count has reached `max_attempts`, and otherwise records `now`
and returns `true`; with `max = 5` and a 15-minute window, exactly five
calls inside one window are allowed, the sixth is rejected, and a call
after the window has passed is allowed again. -/
theorem C4_rate_limiter (rl : RateLimiter) (key : String)
    (max_attempts : Nat) (window_minutes now : Int) :
    (∀ a, a ∈ (rl.getAttempts key).filter
        (fun a => now - window_minutes * 60 < a) ↔
      (a ∈ rl.getAttempts key ∧ now - window_minutes * 60 < a)) ∧
    (max_attempts ≤ ((rl.getAttempts key).filter
        (fun a => now - window_minutes * 60 < a)).length →
      rl.is_allowed key max_attempts window_minutes now =
        (false, rl.setAttempts key ((rl.getAttempts key).filter
          (fun a => now - window_minutes * 60 < a)))) ∧
    (((rl.getAttempts key).filter
        (fun a => now - window_minutes * 60 < a)).length < max_attempts →
      rl.is_allowed key max_attempts window_minutes now =
        (true, rl.setAttempts key (((rl.getAttempts key).filter
          (fun a => now - window_minutes * 60 < a)) ++ [now]))) ∧
    (RateLimiter.allowSeq ⟨[]⟩ "login_alice" 5 15
        [0, 60, 120, 180, 240, 300]).1 =
      [true, true, true, true, true, false] ∧
    (RateLimiter.allowSeq ⟨[]⟩ "login_alice" 5 15
        [0, 60, 120, 180, 240, 300, 1201]).1 =
      [true, true, true, true, true, false, true] := by
  refine ⟨?_, ?_, ?_, by decide, by decide⟩
  · intro a
    simp
  · intro h
    simp [RateLimiter.is_allowed, h]
  · intro h
    simp [RateLimiter.is_allowed, Nat.not_le.mpr h, if_neg (Nat.not_le.mpr h)]

/-- C4 witness: the rejection branch evaluated on a concrete limiter
whose key already holds three in-window attempts with `max = 3`. -/
theorem C4_witness :
    3 ≤ (((RateLimiter.mk [("k", [10, 20, 30])]).getAttempts "k").filter
        (fun a => (60 : Int) - 15 * 60 < a)).length ∧
    (RateLimiter.mk [("k", [10, 20, 30])]).is_allowed "k" 3 15 60 =
      (false, (RateLimiter.mk [("k", [10, 20, 30])]).setAttempts "k"
        [10, 20, 30]) := by
  refine ⟨by decide, ?_⟩
  have h := (C4_rate_limiter (RateLimiter.mk [("k", [10, 20, 30])])
    "k" 3 15 60).2.1 (by decide)
  simpa using h

/-- C5: `refresh_access_token` verifies the presented token with kind
`refresh`, re-resolves the user by the token's subject, rejects when the
token is invalid or expired or the user is missing or inactive, and on
success issues a fresh pair whose access token embeds the permissions
derived from the user's current role. -/
theorem C5_refresh_flow (db : List UserRec) (token : JoseToken)
    (now : Nat) :
    (JWTManager.verify_token token "refresh" now = none →
       AuthManager.refresh_access_token db token now = .invalidToken) ∧
    (∀ p, JWTManager.verify_token token "refresh" now = some p →
       (∀ s, p.sub = some s → AuthManager.find_one db s = none →
          AuthManager.refresh_access_token db token now =
            .userNotFoundOrInactive) ∧
       (∀ s u, p.sub = some s → AuthManager.find_one db s = some u →
          u.is_active = false →
          AuthManager.refresh_access_token db token now =
            .userNotFoundOrInactive) ∧
       (∀ s u, p.sub = some s → AuthManager.find_one db s = some u →
          u.is_active = true →
          AuthManager.refresh_access_token db token now =
            .ok (AuthManager.create_tokens u now) ∧
          (AuthManager.create_tokens u now).access_token =
            JWTManager.create_access_token
              { sub := some u.username, user_id := some u.id,
                role := some u.role,
                permissions := UserRole.get_permissions u.role }
              none now)) := by
  constructor
  · intro h
    simp [AuthManager.refresh_access_token, h]
  · intro p hp
    refine ⟨?_, ?_, ?_⟩
    · intro s hs hf
      simp [AuthManager.refresh_access_token, hp, hs, hf]
    · intro s u hs hf ha
      simp [AuthManager.refresh_access_token, hp, hs, hf, ha]
    · intro s u hs hf ha
      constructor
      · simp [AuthManager.refresh_access_token, hp, hs, hf, ha]
      · rfl

/-- C5 witness: the refresh flow evaluated on the concrete store
`[c5User]` and refresh token `c5Token` at time 0. -/
theorem C5_witness :
    JWTManager.verify_token c5Token "refresh" 0 = some c5Payload ∧
    c5Payload.sub = some "bob" ∧
    AuthManager.find_one [c5User] "bob" = some c5User ∧
    c5User.is_active = true ∧
    AuthManager.refresh_access_token [c5User] c5Token 0 =
      .ok (AuthManager.create_tokens c5User 0) ∧
    (AuthManager.create_tokens c5User 0).access_token =
      JWTManager.create_access_token
        { sub := some c5User.username, user_id := some c5User.id,
          role := some c5User.role,
          permissions := UserRole.get_permissions c5User.role } none 0 :=
  ⟨by decide, rfl, by decide, rfl,
   (((C5_refresh_flow [c5User] c5Token 0).2 c5Payload (by decide)).2.2
      "bob" c5User rfl (by decide) rfl).1,
   (((C5_refresh_flow [c5User] c5Token 0).2 c5Payload (by decide)).2.2
      "bob" c5User rfl (by decide) rfl).2⟩

end Hypertrader

namespace Hypertrader

/-- C6: authenticate's reject outcomes follow the source's priority
order — unknown user gives the generic failure with the store untouched,
a locked account the distinct locked signal, an inactive account the
distinct deactivated signal, a wrong password the generic failure — and
the observable outcome for an unknown username is identical to the
outcome for an existing user with a wrong password (two-run
indistinguishability against username enumeration). -/
theorem C6_reject_priority (db db2 : List UserRec) (un un2 p p2 : String)
    (now now2 : Nat) :
    (AuthManager.find_one db un = none →
       AuthManager.authenticate_user db un p now = (.generic, db)) ∧
    (∀ u, AuthManager.find_one db un = some u →
       AuthManager.lockedCheck u now = true →
       AuthManager.authenticate_user db un p now = (.locked, db)) ∧
    (∀ u, AuthManager.find_one db un = some u →
       AuthManager.lockedCheck u now = false → u.is_active = false →
       AuthManager.authenticate_user db un p now = (.deactivated, db)) ∧
    (∀ u, AuthManager.find_one db un = some u →
       AuthManager.lockedCheck u now = false → u.is_active = true →
       PasswordUtils.verify_password p u.password_hash = false →
       (AuthManager.authenticate_user db un p now).1 = .generic) ∧
    (AuthManager.find_one db un = none →
     ∀ u, AuthManager.find_one db2 un2 = some u →
       AuthManager.lockedCheck u now2 = false → u.is_active = true →
       PasswordUtils.verify_password p2 u.password_hash = false →
       (AuthManager.authenticate_user db un p now).1 =
         (AuthManager.authenticate_user db2 un2 p2 now2).1) := by
  refine ⟨?_, ?_, ?_, ?_, ?_⟩
  · intro h
    simp [AuthManager.authenticate_user, h]
  · intro u hf hl
    simp [AuthManager.authenticate_user, hf, hl]
  · intro u hf hl ha
    simp [AuthManager.authenticate_user, hf, hl, ha]
  · intro u hf hl ha hp
    simp [AuthManager.authenticate_user, hf, hl, ha, hp]
  · intro h u hf hl ha hp
    simp [AuthManager.authenticate_user, h, hf, hl, ha, hp]

/-- C6 witness: the unknown-user run on an empty store and the
wrong-password run against the concrete user `c6User` produce the same
observable outcome. -/
theorem C6_witness :
    AuthManager.find_one [] "mallory" = none ∧
    AuthManager.find_one [c6User] "dave" = some c6User ∧
    AuthManager.lockedCheck c6User 0 = false ∧
    c6User.is_active = true ∧
    PasswordUtils.verify_password "WrongPass1!" c6User.password_hash =
      false ∧
    (AuthManager.authenticate_user [] "mallory" "AnyPass1!" 5).1 =
      (AuthManager.authenticate_user [c6User] "dave" "WrongPass1!" 0).1 :=
  ⟨rfl, by decide, rfl, rfl, by decide,
   (C6_reject_priority [] [c6User] "mallory" "dave" "AnyPass1!"
      "WrongPass1!" 5 0).2.2.2.2 rfl c6User (by decide) rfl rfl
     (by decide)⟩

/-- C7: the code's failure path reads the counter with `find_one` and
later sends one update document whose lockout condition uses that stale
read; under the interleaving of ten concurrent wrong-password attempts
in which every read happens before any write, the counter reaches 10
(the `$inc` itself is atomic, no lost increments) yet `locked_until`
remains `None` — the account is never locked although N = 10 ≥ 5 —
whereas the same ten updates with serialized reads do lock the
account. -/
theorem C7_lost_lockout_race :
    (runFailWrites 0 c7User
        (List.replicate 10 c7User.login_attempts)).login_attempts = 10 ∧
    (runFailWrites 0 c7User
        (List.replicate 10 c7User.login_attempts)).locked_until = none ∧
    (runFailWrites 0 c7User
        [0, 1, 2, 3, 4, 5, 6, 7, 8, 9]).locked_until = some 900 := by
  decide

/-- C8: `validate_password_strength` accepts exactly the passwords of
length at least 8 containing an uppercase letter, a lowercase letter, a
digit, and a character from the fixed punctuation set; it rejects the
length-7, no-uppercase, no-digit, and no-special variants of an
otherwise valid password and accepts "TestPass123!". -/
theorem C8_password_strength (password : String) :
    (PasswordUtils.validate_password_strength password = true ↔
      8 ≤ password.length ∧
      password.toList.any Char.isUpper = true ∧
      password.toList.any Char.isLower = true ∧
      password.toList.any Char.isDigit = true ∧
      password.toList.any
        (fun c => PasswordUtils.specialChars.contains c) = true) ∧
    PasswordUtils.validate_password_strength "TestPass123!" = true ∧
    PasswordUtils.validate_password_strength "Tes123!" = false ∧
    PasswordUtils.validate_password_strength "testpass123!" = false ∧
    PasswordUtils.validate_password_strength "TestPass!!!!" = false ∧
    PasswordUtils.validate_password_strength "TestPass1234" = false := by
  refine ⟨?_, by decide, by decide, by decide, by decide, by decide⟩
  constructor
  · intro h
    unfold PasswordUtils.validate_password_strength at h
    split_ifs at h with h1 h2 h3 h4 h5
    exact ⟨by omega, by simpa using h2, by simpa using h3,
      by simpa using h4, by simpa using h5⟩
  · rintro ⟨hl, h1, h2, h3, h4⟩
    unfold PasswordUtils.validate_password_strength
    rw [if_neg (by omega), if_neg (not_not_intro h1),
      if_neg (not_not_intro h2), if_neg (not_not_intro h3),
      if_neg (not_not_intro h4)]

/-- C9: the credential hasher's verify is total and fails closed: it
returns exactly the library result when the library verify succeeds,
returns `false` whenever the library verify raises, and in particular
returns `false` on every malformed digest. -/
theorem C9_verify_password_fails_closed (plain digest : String) :
    (∀ e, PasswordUtils.cryptContextVerify plain digest = .error e →
       PasswordUtils.verify_password plain digest = false) ∧
    (∀ b, PasswordUtils.cryptContextVerify plain digest = .ok b →
       PasswordUtils.verify_password plain digest = b) ∧
    (PasswordUtils.isBcryptDigest digest = false →
       PasswordUtils.verify_password plain digest = false) := by
  refine ⟨?_, ?_, ?_⟩
  · intro e he
    simp [PasswordUtils.verify_password, he]
  · intro b hb
    simp [PasswordUtils.verify_password, hb]
  · intro hm
    simp [PasswordUtils.verify_password, PasswordUtils.cryptContextVerify,
      hm]

/-- C9 witness: verification against the malformed digest "garbage"
returns `false` rather than raising. -/
theorem C9_witness :
    PasswordUtils.isBcryptDigest "garbage" = false ∧
    PasswordUtils.verify_password "TestPass123!" "garbage" = false :=
  ⟨by decide,
   (C9_verify_password_fails_closed "TestPass123!" "garbage").2.2
     (by decide)⟩

/-- C10: for a user whose lockout expiry has passed but whose
failed-attempt counter is still at least 5, a single further
wrong-password authenticate immediately sets a new lockout expiry 15
minutes in the future and increments — does not reset — the counter. -/
theorem C10_expired_lock_relock (u : UserRec) (w : String) (te now : Nat)
    (hatt : 5 ≤ u.login_attempts) (hlu : u.locked_until = some te)
    (hte : te ≤ now) (hact : u.is_active = true)
    (hw : PasswordUtils.verify_password w u.password_hash = false) :
    AuthManager.authenticate_user [u] u.username w now =
      (.generic,
       [{ u with login_attempts := u.login_attempts + 1,
                 locked_until := some (now + 900) }]) := by
  rw [auth_fail_singleton u u.username w now rfl
    (by simp [AuthManager.lockedCheck, hlu, Nat.not_lt.mpr hte]) hact hw]
  have h4 : 4 ≤ u.login_attempts := by omega
  simp [AuthManager.failedLoginUpdate, h4]

/-- C10 witness: the lazily-unlocked user `c10User` (counter 6, expiry
500) is re-locked until 1900 by one wrong-password attempt at time
1000. -/
theorem C10_witness :
    5 ≤ c10User.login_attempts ∧ c10User.locked_until = some 500 ∧
    500 ≤ 1000 ∧ c10User.is_active = true ∧
    PasswordUtils.verify_password "WrongPass1!" c10User.password_hash =
      false ∧
    AuthManager.authenticate_user [c10User] c10User.username
        "WrongPass1!" 1000 =
      (.generic,
       [{ c10User with login_attempts := c10User.login_attempts + 1,
                       locked_until := some (1000 + 900) }]) :=
  ⟨by decide, rfl, by decide, rfl, by decide,
   C10_expired_lock_relock c10User "WrongPass1!" 500 1000 (by decide)
     rfl (by decide) rfl (by decide)⟩

end Hypertrader
